import Mathlib

/-!
Verification of a RISC-V root-of-trust firmware kernel (CFI + PMP demo).

The definitions below are a shallow embedding of the firmware source.
Machine integers are natural numbers reduced modulo 2^32 where overflow
matters, byte memory is a total function from addresses to byte values,
and the naked-assembly trap handler is modelled as a state transformer
that additionally records an ordered trace of its observable effects:
UART data-register bytes, test-finisher words, updates of the mepc CSR,
and RAM bytes written by the syscall bodies.  The stack-frame save and
restore performed at trap entry and exit act directly on the byte
memory, exactly as the store and load instructions of the source do.
-/

/-! ## Byte-addressed memory, as accessed by lb, sb, lhu, lw and sw -/

/-- Byte memory: a total map from (wrapped 32-bit) addresses to byte values. -/
def Mem : Type := Nat → Nat

/-- Reduce an address or register value to 32 bits, as RV32 address arithmetic does. -/
def wrap (a : Nat) : Nat := a % 4294967296

/-- Store one byte (sb): only the low 8 bits of the value are kept. -/
def store8 (m : Mem) (a v : Nat) : Mem := fun x => if x = wrap a then v % 256 else m x

/-- Load one byte, zero-extended (lbu / the byte consumed by sb forwarding). -/
def load8 (m : Mem) (a : Nat) : Nat := m (wrap a) % 256

/-- Load a halfword little-endian (lhu). -/
def load16 (m : Mem) (a : Nat) : Nat := load8 m a + 256 * load8 m (a + 1)

/-- Load a word little-endian (lw). -/
def loadW (m : Mem) (a : Nat) : Nat :=
  load8 m a + 256 * load8 m (a + 1) + 65536 * load8 m (a + 2) + 16777216 * load8 m (a + 3)

/-- Store a word little-endian (sw). -/
def storeW (m : Mem) (a v : Nat) : Mem :=
  store8 (store8 (store8 (store8 m a v) (a + 1) (v / 256)) (a + 2) (v / 65536)) (a + 3) (v / 16777216)

/-! ## Machine state visible to the trap handler of src/rot/src/main.rs -/

/-- The registers the trap handler saves, uses, or restores. -/
structure Regs where
  ra : Nat
  t0 : Nat
  t1 : Nat
  t2 : Nat
  a0 : Nat
  a1 : Nat
  a2 : Nat
  a7 : Nat
  sp : Nat
  deriving DecidableEq

/-- Machine state at trap entry: register file, mepc CSR, byte memory. -/
structure TrapState where
  regs : Regs
  mepc : Nat
  mem : Mem

/-- Observable effects of the trap handler, in program order. -/
inductive Event where
  | uartWrite : Nat → Event
  | finisherWrite : Nat → Event
  | mepcSet : Nat → Event
  | memWrite : Nat → Nat → Event
  deriving DecidableEq

/-- Result of a trap: either mret with a final machine state, or an infinite
wfi loop (the fatal and exit paths never return). -/
inductive Outcome where
  | ret : TrapState → Outcome
  | halt : Outcome

/-- Registers at mret, when the trap returns. -/
def regsOf : Outcome → Option Regs
  | Outcome.ret t => some t.regs
  | Outcome.halt => none

/-- Value of mepc at mret, when the trap returns. -/
def mepcOf : Outcome → Option Nat
  | Outcome.ret t => some t.mepc
  | Outcome.halt => none

/-- Value of register a0 at mret, when the trap returns. -/
def a0Of : Outcome → Option Nat
  | Outcome.ret t => some t.regs.a0
  | Outcome.halt => none

/-- Well-formed trap-entry state: register values fit in 32 bits, the kernel
stack pointer leaves room for the 64-byte frame, mepc fits in 32 bits. -/
def WF (s : TrapState) : Prop :=
  s.regs.ra < 4294967296 ∧ s.regs.t0 < 4294967296 ∧ s.regs.t1 < 4294967296 ∧
  s.regs.t2 < 4294967296 ∧ s.regs.a0 < 4294967296 ∧ s.regs.a1 < 4294967296 ∧
  s.regs.a2 < 4294967296 ∧ s.regs.a7 < 4294967296 ∧
  64 ≤ s.regs.sp ∧ s.regs.sp < 4294967296 ∧ s.mepc < 4294967296

instance (s : TrapState) : Decidable (WF s) := by unfold WF; infer_instance

/-! ## Trap handler model (src/rot/src/main.rs, _trap_handler and friends) -/

/-- Frame base: addi sp, sp, -64 computed in 32-bit arithmetic. -/
def frameBase (sp : Nat) : Nat := wrap (sp + 4294967232)

/-- The eight sw instructions at trap entry: ra, t0, t1, t2, a0, a1, a2, a7
at offsets 0, 4, 8, 12, 16, 20, 24, 28 of the new stack pointer. -/
def frameSave (m : Mem) (sp1 : Nat) (r : Regs) : Mem :=
  storeW (storeW (storeW (storeW (storeW (storeW (storeW (storeW m
    sp1 r.ra) (sp1 + 4) r.t0) (sp1 + 8) r.t1) (sp1 + 12) r.t2)
    (sp1 + 16) r.a0) (sp1 + 20) r.a1) (sp1 + 24) r.a2) (sp1 + 28) r.a7

/-- The _trap_return sequence: reload the eight saved registers from the
frame, release the 64-byte frame, mret. -/
def trapReturn (sp1 mepcN : Nat) (m : Mem) : Outcome :=
  Outcome.ret
    { regs :=
        { ra := loadW m sp1, t0 := loadW m (sp1 + 4), t1 := loadW m (sp1 + 8),
          t2 := loadW m (sp1 + 12), a0 := loadW m (sp1 + 16), a1 := loadW m (sp1 + 20),
          a2 := loadW m (sp1 + 24), a7 := loadW m (sp1 + 28), sp := wrap (sp1 + 64) },
      mepc := mepcN, mem := m }

/-- An sb through a syscall-controlled pointer: a store to the UART data
register is a device write; any other address updates RAM and is logged. -/
def effStore8 (m : Mem) (a v : Nat) : Mem × List Event :=
  if wrap a = 0x10000000 then (m, [Event.uartWrite (v % 256)])
  else (store8 m a v, [Event.memWrite (wrap a) (v % 256)])

/-- Syscall 1 body: lb from the buffer, sb to the UART data register,
repeated a1 times while advancing a0. -/
def putsEvents (m : Mem) : Nat → Nat → List Event
  | _, 0 => []
  | a, n + 1 => Event.uartWrite (load8 m a) :: putsEvents m (wrap (a + 1)) n

/-- Syscall 3 body: sb 0xAA through a0, repeated a1 times while advancing a0. -/
def fillLoop : Mem → Nat → Nat → Mem × List Event
  | m, _, 0 => (m, [])
  | m, a, n + 1 =>
    ((fillLoop (effStore8 m a 0xAA).1 (wrap (a + 1)) n).1,
     (effStore8 m a 0xAA).2 ++ (fillLoop (effStore8 m a 0xAA).1 (wrap (a + 1)) n).2)

/-- The _handle_cfi_violation path: the five bytes C F I ! LF to the UART
data register, then wfi forever. -/
def handleCfiViolation : List Event × Outcome :=
  ([Event.uartWrite 0x43, Event.uartWrite 0x46, Event.uartWrite 0x49,
    Event.uartWrite 0x21, Event.uartWrite 0x0A], Outcome.halt)

/-- The _handle_ecall path: advance mepc by 4 first, then reload a7, a0, a1
from the frame and dispatch on the syscall number. -/
def handleEcall (mepc0 sp1 : Nat) (m : Mem) : List Event × Outcome :=
  if loadW m (sp1 + 28) = 0 then
    ([Event.mepcSet (wrap (mepc0 + 4)), Event.uartWrite (loadW m (sp1 + 16) % 256)],
     trapReturn sp1 (wrap (mepc0 + 4)) m)
  else if loadW m (sp1 + 28) = 1 then
    (Event.mepcSet (wrap (mepc0 + 4)) :: putsEvents m (loadW m (sp1 + 16)) (loadW m (sp1 + 20)),
     trapReturn sp1 (wrap (mepc0 + 4)) m)
  else if loadW m (sp1 + 28) = 2 then
    ([Event.mepcSet (wrap (mepc0 + 4)), Event.finisherWrite 0x5555], Outcome.halt)
  else if loadW m (sp1 + 28) = 3 then
    (Event.mepcSet (wrap (mepc0 + 4)) :: (fillLoop m (loadW m (sp1 + 16)) (loadW m (sp1 + 20))).2,
     trapReturn sp1 (wrap (mepc0 + 4)) (fillLoop m (loadW m (sp1 + 16)) (loadW m (sp1 + 20))).1)
  else
    ([Event.mepcSet (wrap (mepc0 + 4))], trapReturn sp1 (wrap (mepc0 + 4)) m)

/-- The _handle_illegal path: lhu at mepc, advance by 4 when its low two
bits are 0b11 and by 2 otherwise, write mepc back, restore and return. -/
def handleIllegal (mepc0 sp1 : Nat) (m : Mem) : List Event × Outcome :=
  ([Event.mepcSet (if load16 m mepc0 % 4 = 3 then wrap (mepc0 + 4) else wrap (mepc0 + 2))],
   trapReturn sp1 (if load16 m mepc0 % 4 = 3 then wrap (mepc0 + 4) else wrap (mepc0 + 2)) m)

/-- The unified _trap_handler: save the eight-register frame on the kernel
stack, read mcause, dispatch to ecall service, illegal-instruction skip,
CFI-violation halt (causes 18 and 1), or the unknown-trap wfi loop. -/
def trapHandler (s : TrapState) (mcause : Nat) : List Event × Outcome :=
  if mcause = 8 then
    handleEcall s.mepc (frameBase s.regs.sp) (frameSave s.mem (frameBase s.regs.sp) s.regs)
  else if mcause = 2 then
    handleIllegal s.mepc (frameBase s.regs.sp) (frameSave s.mem (frameBase s.regs.sp) s.regs)
  else if mcause = 18 then handleCfiViolation
  else if mcause = 1 then handleCfiViolation
  else ([], Outcome.halt)

/-! ## PMP configuration (src/rot/src/main.rs, configure_pmp) -/

def PMP_NAPOT : Nat := 0x18
def PMP_R : Nat := 0x01
def PMP_W : Nat := 0x02
def PMP_X : Nat := 0x04
def PMP_L : Nat := 0x80

/-- NAPOT address encoding: (base >> 2) | ((size >> 3) - 1). -/
def pmp_napot_addr (base size : Nat) : Nat := (base >>> 2) ||| (size >>> 3 - 1)

def pmp0_addr : Nat := pmp_napot_addr 0x80000000 (64 * 1024)
def pmp0_cfg : Nat := PMP_L ||| PMP_NAPOT ||| PMP_R ||| PMP_X
def pmp1_addr : Nat := pmp_napot_addr 0x80010000 (32 * 1024)
def pmp1_cfg : Nat := 0
def pmp2_addr : Nat := pmp_napot_addr 0x80018000 (8 * 1024)
def pmp2_cfg : Nat := 0
def pmp3_addr : Nat := pmp_napot_addr 0x80020000 (128 * 1024)
def pmp3_cfg : Nat := PMP_NAPOT ||| PMP_R ||| PMP_X
def pmp4_addr : Nat := pmp_napot_addr 0x80040000 (32 * 1024)
def pmp4_cfg : Nat := PMP_NAPOT ||| PMP_R
def pmp5_addr : Nat := pmp_napot_addr 0x80048000 (64 * 1024)
def pmp5_cfg : Nat := PMP_NAPOT ||| PMP_R ||| PMP_W
def pmp6_addr : Nat := pmp_napot_addr 0x80058000 (8 * 1024)
def pmp6_cfg : Nat := PMP_NAPOT ||| PMP_R ||| PMP_W
def pmp7_addr : Nat := pmp_napot_addr 0x10000000 (4 * 1024)
def pmp7_cfg : Nat := PMP_NAPOT ||| PMP_R ||| PMP_W

/-- pmpcfg0 as written by configure_pmp: entries 0 to 3 packed one byte each. -/
def pmpcfg0 : Nat := pmp0_cfg ||| (pmp1_cfg <<< 8) ||| (pmp2_cfg <<< 16) ||| (pmp3_cfg <<< 24)

/-- pmpcfg1 as written by configure_pmp: entries 4 to 7 packed one byte each. -/
def pmpcfg1 : Nat := pmp4_cfg ||| (pmp5_cfg <<< 8) ||| (pmp6_cfg <<< 16) ||| (pmp7_cfg <<< 24)

/-- Per-entry configuration byte after configure_pmp has run.  Entries 0 to 3
come from pmpcfg0, 4 to 7 from pmpcfg1; configure_pmp writes no other
configuration register, so every higher entry keeps its reset value 0. -/
def pmpEntryCfg (i : Nat) : Nat :=
  if i < 4 then pmpcfg0 >>> (8 * i) % 256
  else if i < 8 then pmpcfg1 >>> (8 * (i - 4)) % 256
  else 0

/-- Per-entry address register after configure_pmp has run: pmpaddr0 to
pmpaddr7 are written individually, higher ones keep their reset value 0. -/
def pmpEntryAddr (i : Nat) : Nat :=
  List.getD [pmp0_addr, pmp1_addr, pmp2_addr, pmp3_addr,
             pmp4_addr, pmp5_addr, pmp6_addr, pmp7_addr] i 0

/-- The five address ranges granted to user mode by PMP entries 3 to 7:
user code, user rodata, user RAM, user shadow stacks, UART MMIO. -/
def inUserRegion (a : Nat) : Prop :=
  (0x80020000 ≤ a ∧ a < 0x80040000) ∨ (0x80040000 ≤ a ∧ a < 0x80048000) ∨
  (0x80048000 ≤ a ∧ a < 0x80058000) ∨ (0x80058000 ≤ a ∧ a < 0x8005A000) ∨
  (0x10000000 ≤ a ∧ a < 0x10001000)

instance (a : Nat) : Decidable (inUserRegion a) := by unfold inUserRegion; infer_instance

/-! ## Privileged services (src/rot/src/main.rs) -/

/-- Body of the measurement loop of rot_measure_firmware: while the cursor
has not reached the end address, lw a word, xor it into the accumulator,
advance by 4.  The loop runs size / 4 times (the source loop exits exactly
when the cursor reaches base + size, which for a word-multiple size is
after size / 4 iterations). -/
def measureLoop (mem : Mem) : Nat → Nat → Nat → Nat
  | _, acc, 0 => acc
  | a, acc, n + 1 => measureLoop mem (wrap (a + 4)) (acc ^^^ loadW mem a) n

/-- rot_measure_firmware(base, size): 32-bit XOR of the aligned words in
the region, starting from accumulator 0. -/
def rot_measure_firmware (mem : Mem) (base size : Nat) : Nat :=
  measureLoop mem base 0 (size / 4)

/-- Specification-side description of the same quantity, written directly
from the words of the claim: the XOR of every aligned word in the region. -/
def xorWords (mem : Mem) : Nat → Nat → Nat
  | _, 0 => 0
  | a, n + 1 => loadW mem a ^^^ xorWords mem (a + 4) n

/-- rot_seal_secret(data, key_id): xor a0, a0, a1. -/
def rot_seal_secret (data key_id : Nat) : Nat := data ^^^ key_id

/-! ## Dispatch demo (src/src/main.rs) -/

/-- triple: slli t0, a0, 1; add a0, t0, a0 in 32-bit arithmetic. -/
def triple (x : Nat) : Nat := (x * 2 % 4294967296 + x) % 4294967296

/-- add_42: addi a0, a0, 42 in 32-bit arithmetic. -/
def add_42 (x : Nat) : Nat := (x + 42) % 4294967296

/-- square: mul a0, a0, a0 keeps the low 32 bits. -/
def square (x : Nat) : Nat := x * x % 4294967296

/-- The static dispatch table: id and handler pairs, in order. -/
def DISPATCH_TABLE : List (Nat × (Nat → Nat)) := [(0, triple), (1, add_42), (2, square)]

/-- The lookup loop of dispatch: first entry whose id matches wins. -/
def dispatchLookup : List (Nat × (Nat → Nat)) → Nat → Nat → Option Nat
  | [], _, _ => none
  | e :: rest, i, arg => if e.1 = i then some (e.2 arg) else dispatchLookup rest i arg

/-- dispatch(id, arg): look up the handler in the table and call it. -/
def dispatch (i arg : Nat) : Option Nat := dispatchLookup DISPATCH_TABLE i arg

/-- call_and_inc(fp, x): call the function pointer, then addi a0, a0, 1. -/
def call_and_inc (fp : Nat → Nat) (x : Nat) : Nat := (fp x + 1) % 4294967296

/-! ## Concrete machine states used by witnesses and counterexamples -/

/-- A generic well-formed trap-entry state (syscall 0 pending, zero memory). -/
def sDemo : TrapState :=
  { regs := { ra := 0x80000010, t0 := 0, t1 := 0, t2 := 0, a0 := 0x4F, a1 := 0,
              a2 := 0, a7 := 0, sp := 0x80014000 },
    mepc := 0x80020004, mem := fun _ => 0 }

/-- A trap-entry state requesting syscall 2 (exit) with exit code 7. -/
def sExit : TrapState :=
  { regs := { ra := 0x80000010, t0 := 0, t1 := 0, t2 := 0, a0 := 7, a1 := 0,
              a2 := 0, a7 := 2, sp := 0x80014000 },
    mepc := 0x80020008, mem := fun _ => 0 }

/-- A trap-entry state requesting syscall 2 (exit) with exit code 0. -/
def sExit0 : TrapState :=
  { regs := { ra := 0x80000010, t0 := 0, t1 := 0, t2 := 0, a0 := 0, a1 := 0,
              a2 := 0, a7 := 2, sp := 0x80014000 },
    mepc := 0x8002000C, mem := fun _ => 0 }

/-- A trap-entry state requesting syscall 3 (get_random) with a buffer in
kernel RAM, outside every user region. -/
def sC2 : TrapState :=
  { regs := { ra := 1, t0 := 0, t1 := 0, t2 := 0, a0 := 0x80010000, a1 := 1,
              a2 := 0, a7 := 3, sp := 0x80011000 },
    mepc := 0x80020000, mem := fun _ => 0 }

/-- A trap-entry state requesting syscall 3 (get_random) whose buffer is
exactly the saved-a0 slot of the trap frame on the kernel stack. -/
def sC10 : TrapState :=
  { regs := { ra := 1, t0 := 2, t1 := 3, t2 := 4, a0 := 0x80010FD0, a1 := 4,
              a2 := 5, a7 := 3, sp := 0x80011000 },
    mepc := 0x80020000, mem := fun _ => 0 }

/-- A trap-entry state requesting syscall 3 (get_random) with a buffer in
user RAM, disjoint from the trap frame. -/
def sFill : TrapState :=
  { regs := { ra := 0x80000010, t0 := 0, t1 := 0, t2 := 0, a0 := 0x80048000, a1 := 8,
              a2 := 0, a7 := 3, sp := 0x80014000 },
    mepc := 0x80020010, mem := fun _ => 0 }

/-- The 16-byte region of scenario S5: words 1, 2, 4, 8 little-endian. -/
def exMem : Mem := fun a =>
  if a = 0x80020000 then 1 else if a = 0x80020004 then 2
  else if a = 0x80020008 then 4 else if a = 0x8002000C then 8 else 0

/-! ## Memory lemmas -/

lemma load8_store8_same (m : Mem) (a v : Nat) : load8 (store8 m a v) a = v % 256 := by
  unfold load8 store8
  rw [if_pos rfl]
  omega

lemma load8_store8_ne {m : Mem} {a b v : Nat} (h : b % 4294967296 ≠ a % 4294967296) :
    load8 (store8 m a v) b = load8 m b := by
  simp only [load8, store8, wrap]
  rw [if_neg h]

lemma load8_storeW_ne {m : Mem} {a v x : Nat} (hx : x < 4294967296)
    (ha : a + 3 < 4294967296) (hd : x < a ∨ a + 3 < x) :
    load8 (storeW m a v) x = load8 m x := by
  have e3 : x % 4294967296 ≠ (a + 3) % 4294967296 := by omega
  have e2 : x % 4294967296 ≠ (a + 2) % 4294967296 := by omega
  have e1 : x % 4294967296 ≠ (a + 1) % 4294967296 := by omega
  have e0 : x % 4294967296 ≠ a % 4294967296 := by omega
  unfold storeW
  rw [load8_store8_ne e3, load8_store8_ne e2, load8_store8_ne e1, load8_store8_ne e0]

lemma load8_storeW_at0 {m : Mem} {a v : Nat} (ha : a + 3 < 4294967296) :
    load8 (storeW m a v) a = v % 256 := by
  have e3 : a % 4294967296 ≠ (a + 3) % 4294967296 := by omega
  have e2 : a % 4294967296 ≠ (a + 2) % 4294967296 := by omega
  have e1 : a % 4294967296 ≠ (a + 1) % 4294967296 := by omega
  unfold storeW
  rw [load8_store8_ne e3, load8_store8_ne e2, load8_store8_ne e1, load8_store8_same]

lemma load8_storeW_at1 {m : Mem} {a v : Nat} (ha : a + 3 < 4294967296) :
    load8 (storeW m a v) (a + 1) = v / 256 % 256 := by
  have e3 : (a + 1) % 4294967296 ≠ (a + 3) % 4294967296 := by omega
  have e2 : (a + 1) % 4294967296 ≠ (a + 2) % 4294967296 := by omega
  unfold storeW
  rw [load8_store8_ne e3, load8_store8_ne e2, load8_store8_same]

lemma load8_storeW_at2 {m : Mem} {a v : Nat} (ha : a + 3 < 4294967296) :
    load8 (storeW m a v) (a + 2) = v / 65536 % 256 := by
  have e3 : (a + 2) % 4294967296 ≠ (a + 3) % 4294967296 := by omega
  unfold storeW
  rw [load8_store8_ne e3, load8_store8_same]

lemma load8_storeW_at3 {m : Mem} {a v : Nat} (ha : a + 3 < 4294967296) :
    load8 (storeW m a v) (a + 3) = v / 16777216 % 256 := by
  unfold storeW
  rw [load8_store8_same]

lemma loadW_storeW_same {m : Mem} {a v : Nat} (ha : a + 3 < 4294967296)
    (hv : v < 4294967296) : loadW (storeW m a v) a = v := by
  unfold loadW
  rw [load8_storeW_at0 ha, load8_storeW_at1 ha, load8_storeW_at2 ha, load8_storeW_at3 ha]
  omega

lemma loadW_storeW_ne {m : Mem} {a v b : Nat} (hb : b + 3 < 4294967296)
    (ha : a + 3 < 4294967296) (hd : b + 4 ≤ a ∨ a + 4 ≤ b) :
    loadW (storeW m a v) b = loadW m b := by
  have h0 : load8 (storeW m a v) b = load8 m b := load8_storeW_ne (by omega) ha (by omega)
  have h1 : load8 (storeW m a v) (b + 1) = load8 m (b + 1) :=
    load8_storeW_ne (by omega) ha (by omega)
  have h2 : load8 (storeW m a v) (b + 2) = load8 m (b + 2) :=
    load8_storeW_ne (by omega) ha (by omega)
  have h3 : load8 (storeW m a v) (b + 3) = load8 m (b + 3) :=
    load8_storeW_ne (by omega) ha (by omega)
  unfold loadW
  rw [h0, h1, h2, h3]

/-! ## Frame round-trip lemmas -/

lemma frameSave_ra {m : Mem} {sp1 : Nat} {r : Regs} (hsp : sp1 + 32 ≤ 4294967296)
    (hv : r.ra < 4294967296) : loadW (frameSave m sp1 r) sp1 = r.ra := by
  have hb : sp1 + 3 < 4294967296 := by omega
  have k1 : sp1 + 4 + 3 < 4294967296 := by omega
  have k2 : sp1 + 8 + 3 < 4294967296 := by omega
  have k3 : sp1 + 12 + 3 < 4294967296 := by omega
  have k4 : sp1 + 16 + 3 < 4294967296 := by omega
  have k5 : sp1 + 20 + 3 < 4294967296 := by omega
  have k6 : sp1 + 24 + 3 < 4294967296 := by omega
  have k7 : sp1 + 28 + 3 < 4294967296 := by omega
  unfold frameSave
  rw [loadW_storeW_ne hb k7 (by omega), loadW_storeW_ne hb k6 (by omega),
      loadW_storeW_ne hb k5 (by omega), loadW_storeW_ne hb k4 (by omega),
      loadW_storeW_ne hb k3 (by omega), loadW_storeW_ne hb k2 (by omega),
      loadW_storeW_ne hb k1 (by omega), loadW_storeW_same hb hv]

lemma frameSave_t0 {m : Mem} {sp1 : Nat} {r : Regs} (hsp : sp1 + 32 ≤ 4294967296)
    (hv : r.t0 < 4294967296) : loadW (frameSave m sp1 r) (sp1 + 4) = r.t0 := by
  have hb : sp1 + 4 + 3 < 4294967296 := by omega
  have k2 : sp1 + 8 + 3 < 4294967296 := by omega
  have k3 : sp1 + 12 + 3 < 4294967296 := by omega
  have k4 : sp1 + 16 + 3 < 4294967296 := by omega
  have k5 : sp1 + 20 + 3 < 4294967296 := by omega
  have k6 : sp1 + 24 + 3 < 4294967296 := by omega
  have k7 : sp1 + 28 + 3 < 4294967296 := by omega
  unfold frameSave
  rw [loadW_storeW_ne hb k7 (by omega), loadW_storeW_ne hb k6 (by omega),
      loadW_storeW_ne hb k5 (by omega), loadW_storeW_ne hb k4 (by omega),
      loadW_storeW_ne hb k3 (by omega), loadW_storeW_ne hb k2 (by omega),
      loadW_storeW_same hb hv]

lemma frameSave_t1 {m : Mem} {sp1 : Nat} {r : Regs} (hsp : sp1 + 32 ≤ 4294967296)
    (hv : r.t1 < 4294967296) : loadW (frameSave m sp1 r) (sp1 + 8) = r.t1 := by
  have hb : sp1 + 8 + 3 < 4294967296 := by omega
  have k3 : sp1 + 12 + 3 < 4294967296 := by omega
  have k4 : sp1 + 16 + 3 < 4294967296 := by omega
  have k5 : sp1 + 20 + 3 < 4294967296 := by omega
  have k6 : sp1 + 24 + 3 < 4294967296 := by omega
  have k7 : sp1 + 28 + 3 < 4294967296 := by omega
  unfold frameSave
  rw [loadW_storeW_ne hb k7 (by omega), loadW_storeW_ne hb k6 (by omega),
      loadW_storeW_ne hb k5 (by omega), loadW_storeW_ne hb k4 (by omega),
      loadW_storeW_ne hb k3 (by omega), loadW_storeW_same hb hv]

lemma frameSave_t2 {m : Mem} {sp1 : Nat} {r : Regs} (hsp : sp1 + 32 ≤ 4294967296)
    (hv : r.t2 < 4294967296) : loadW (frameSave m sp1 r) (sp1 + 12) = r.t2 := by
  have hb : sp1 + 12 + 3 < 4294967296 := by omega
  have k4 : sp1 + 16 + 3 < 4294967296 := by omega
  have k5 : sp1 + 20 + 3 < 4294967296 := by omega
  have k6 : sp1 + 24 + 3 < 4294967296 := by omega
  have k7 : sp1 + 28 + 3 < 4294967296 := by omega
  unfold frameSave
  rw [loadW_storeW_ne hb k7 (by omega), loadW_storeW_ne hb k6 (by omega),
      loadW_storeW_ne hb k5 (by omega), loadW_storeW_ne hb k4 (by omega),
      loadW_storeW_same hb hv]

lemma frameSave_a0 {m : Mem} {sp1 : Nat} {r : Regs} (hsp : sp1 + 32 ≤ 4294967296)
    (hv : r.a0 < 4294967296) : loadW (frameSave m sp1 r) (sp1 + 16) = r.a0 := by
  have hb : sp1 + 16 + 3 < 4294967296 := by omega
  have k5 : sp1 + 20 + 3 < 4294967296 := by omega
  have k6 : sp1 + 24 + 3 < 4294967296 := by omega
  have k7 : sp1 + 28 + 3 < 4294967296 := by omega
  unfold frameSave
  rw [loadW_storeW_ne hb k7 (by omega), loadW_storeW_ne hb k6 (by omega),
      loadW_storeW_ne hb k5 (by omega), loadW_storeW_same hb hv]

lemma frameSave_a1 {m : Mem} {sp1 : Nat} {r : Regs} (hsp : sp1 + 32 ≤ 4294967296)
    (hv : r.a1 < 4294967296) : loadW (frameSave m sp1 r) (sp1 + 20) = r.a1 := by
  have hb : sp1 + 20 + 3 < 4294967296 := by omega
  have k6 : sp1 + 24 + 3 < 4294967296 := by omega
  have k7 : sp1 + 28 + 3 < 4294967296 := by omega
  unfold frameSave
  rw [loadW_storeW_ne hb k7 (by omega), loadW_storeW_ne hb k6 (by omega),
      loadW_storeW_same hb hv]

lemma frameSave_a2 {m : Mem} {sp1 : Nat} {r : Regs} (hsp : sp1 + 32 ≤ 4294967296)
    (hv : r.a2 < 4294967296) : loadW (frameSave m sp1 r) (sp1 + 24) = r.a2 := by
  have hb : sp1 + 24 + 3 < 4294967296 := by omega
  have k7 : sp1 + 28 + 3 < 4294967296 := by omega
  unfold frameSave
  rw [loadW_storeW_ne hb k7 (by omega), loadW_storeW_same hb hv]

lemma frameSave_a7 {m : Mem} {sp1 : Nat} {r : Regs} (hsp : sp1 + 32 ≤ 4294967296)
    (hv : r.a7 < 4294967296) : loadW (frameSave m sp1 r) (sp1 + 28) = r.a7 := by
  have hb : sp1 + 28 + 3 < 4294967296 := by omega
  unfold frameSave
  rw [loadW_storeW_same hb hv]

lemma load8_frameSave_ne {m : Mem} {sp1 : Nat} {r : Regs} {x : Nat}
    (hx : x < 4294967296) (hsp : sp1 + 32 ≤ 4294967296)
    (hd : x < sp1 ∨ sp1 + 32 ≤ x) : load8 (frameSave m sp1 r) x = load8 m x := by
  have g0 : sp1 + 3 < 4294967296 := by omega
  have g1 : sp1 + 4 + 3 < 4294967296 := by omega
  have g2 : sp1 + 8 + 3 < 4294967296 := by omega
  have g3 : sp1 + 12 + 3 < 4294967296 := by omega
  have g4 : sp1 + 16 + 3 < 4294967296 := by omega
  have g5 : sp1 + 20 + 3 < 4294967296 := by omega
  have g6 : sp1 + 24 + 3 < 4294967296 := by omega
  have g7 : sp1 + 28 + 3 < 4294967296 := by omega
  unfold frameSave
  rw [load8_storeW_ne hx g7 (by omega), load8_storeW_ne hx g6 (by omega),
      load8_storeW_ne hx g5 (by omega), load8_storeW_ne hx g4 (by omega),
      load8_storeW_ne hx g3 (by omega), load8_storeW_ne hx g2 (by omega),
      load8_storeW_ne hx g1 (by omega), load8_storeW_ne hx g0 (by omega)]

lemma load16_frameSave_ne {m : Mem} {sp1 : Nat} {r : Regs} {x : Nat}
    (hx : x + 2 ≤ 4294967296) (hsp : sp1 + 32 ≤ 4294967296)
    (hd : x + 2 ≤ sp1 ∨ sp1 + 32 ≤ x) : load16 (frameSave m sp1 r) x = load16 m x := by
  have b0 : load8 (frameSave m sp1 r) x = load8 m x :=
    load8_frameSave_ne (by omega) hsp (by omega)
  have b1 : load8 (frameSave m sp1 r) (x + 1) = load8 m (x + 1) :=
    load8_frameSave_ne (by omega) hsp (by omega)
  unfold load16
  rw [b0, b1]

/-- The generic restore lemma: when the memory handed to _trap_return is
the freshly saved frame, every register comes back with its entry value. -/
lemma regsOf_trapReturn_frame {m : Mem} {sp1 : Nat} {r : Regs} (mepcN : Nat)
    (hsp1 : sp1 + 32 ≤ 4294967296) (hsp64 : wrap (sp1 + 64) = r.sp)
    (h0 : r.ra < 4294967296) (h1 : r.t0 < 4294967296) (h2 : r.t1 < 4294967296)
    (h3 : r.t2 < 4294967296) (h4 : r.a0 < 4294967296) (h5 : r.a1 < 4294967296)
    (h6 : r.a2 < 4294967296) (h7 : r.a7 < 4294967296) :
    regsOf (trapReturn sp1 mepcN (frameSave m sp1 r)) = some r := by
  simp only [regsOf, trapReturn]
  rw [frameSave_ra hsp1 h0, frameSave_t0 hsp1 h1, frameSave_t1 hsp1 h2,
      frameSave_t2 hsp1 h3, frameSave_a0 hsp1 h4, frameSave_a1 hsp1 h5,
      frameSave_a2 hsp1 h6, frameSave_a7 hsp1 h7, hsp64]

/-! ## Fill-loop lemmas (syscall 3) -/

lemma load8_fillLoop_ne : ∀ (n : Nat) (m : Mem) (a x : Nat),
    (∀ i, i < n → (a + i) % 4294967296 ≠ x % 4294967296) →
    load8 (fillLoop m a n).1 x = load8 m x := by
  intro n
  induction n with
  | zero => intro m a x _; rfl
  | succ n ih =>
    intro m a x h
    simp only [fillLoop]
    have hrec : load8 (fillLoop (effStore8 m a 0xAA).1 (wrap (a + 1)) n).1 x =
        load8 (effStore8 m a 0xAA).1 x := by
      refine ih (effStore8 m a 0xAA).1 (wrap (a + 1)) x ?_
      intro i hi
      have h2 := h (i + 1) (by omega)
      unfold wrap
      rw [Nat.mod_add_mod]
      have e : a + 1 + i = a + (i + 1) := by omega
      rw [e]
      exact h2
    rw [hrec]
    by_cases hu : wrap a = 0x10000000
    · simp [effStore8, hu]
    · simp only [effStore8, if_neg hu]
      have h0 := h 0 (by omega)
      exact load8_store8_ne (by omega)

lemma loadW_fillLoop_ne {m : Mem} {a n x : Nat} (hx : x + 3 < 4294967296)
    (h : ∀ i, i < n → (a + i) % 4294967296 < x ∨ x + 4 ≤ (a + i) % 4294967296) :
    loadW (fillLoop m a n).1 x = loadW m x := by
  have b0 : load8 (fillLoop m a n).1 x = load8 m x :=
    load8_fillLoop_ne n m a x (by intro i hi; have := h i hi; omega)
  have b1 : load8 (fillLoop m a n).1 (x + 1) = load8 m (x + 1) :=
    load8_fillLoop_ne n m a (x + 1) (by intro i hi; have := h i hi; omega)
  have b2 : load8 (fillLoop m a n).1 (x + 2) = load8 m (x + 2) :=
    load8_fillLoop_ne n m a (x + 2) (by intro i hi; have := h i hi; omega)
  have b3 : load8 (fillLoop m a n).1 (x + 3) = load8 m (x + 3) :=
    load8_fillLoop_ne n m a (x + 3) (by intro i hi; have := h i hi; omega)
  unfold loadW
  rw [b0, b1, b2, b3]

/-! ## Event-trace lemmas -/

lemma putsEvents_no_mepcSet : ∀ (n : Nat) (m : Mem) (a v : Nat),
    Event.mepcSet v ∉ putsEvents m a n := by
  intro n
  induction n with
  | zero => intro m a v; simp [putsEvents]
  | succ n ih =>
    intro m a v
    simp only [putsEvents, List.mem_cons]
    rintro (h | h)
    · exact Event.noConfusion h
    · exact ih m (wrap (a + 1)) v h

lemma effStore8_no_mepcSet (m : Mem) (a w v : Nat) :
    Event.mepcSet v ∉ (effStore8 m a w).2 := by
  unfold effStore8
  split <;> simp

lemma fillLoop_no_mepcSet : ∀ (n : Nat) (m : Mem) (a v : Nat),
    Event.mepcSet v ∉ (fillLoop m a n).2 := by
  intro n
  induction n with
  | zero => intro m a v; simp [fillLoop]
  | succ n ih =>
    intro m a v
    simp only [fillLoop, List.mem_append]
    rintro (h | h)
    · exact effStore8_no_mepcSet m a 0xAA v h
    · exact ih (effStore8 m a 0xAA).1 (wrap (a + 1)) v h

/-! ## Measurement lemma -/

lemma measureLoop_eq : ∀ (n : Nat) (mem : Mem) (a acc : Nat),
    a + 4 * n ≤ 4294967296 → measureLoop mem a acc n = acc ^^^ xorWords mem a n := by
  intro n
  induction n with
  | zero => intro mem a acc _; simp [measureLoop, xorWords]
  | succ n ih =>
    intro mem a acc h
    rcases Nat.eq_zero_or_pos n with hn | hn
    · subst hn
      simp [measureLoop, xorWords, Nat.xor_assoc]
    · have hw : wrap (a + 4) = a + 4 := by unfold wrap; omega
      simp only [measureLoop, xorWords]
      rw [hw, ih mem (a + 4) (acc ^^^ loadW mem a) (by omega), Nat.xor_assoc]

/-! ## Claim theorems -/

/-- Claim C1: configure_pmp programs exactly PMP entries 0 through 7 and
leaves all higher entries zero; entry 0 (kernel ROM) is R+X with the lock
bit set and is the only locked entry; entries 1 and 2 are zero, granting
user mode nothing; and every user-facing entry 3 through 7 is W xor X. -/
theorem pmp_configuration_invariants :
    (pmpEntryCfg 0 &&& PMP_R ≠ 0 ∧ pmpEntryCfg 0 &&& PMP_X ≠ 0 ∧
     pmpEntryCfg 0 &&& PMP_L ≠ 0 ∧ pmpEntryCfg 0 &&& PMP_W = 0) ∧
    (∀ i, i < 16 → pmpEntryCfg i &&& PMP_L ≠ 0 → i = 0) ∧
    pmpEntryCfg 1 = 0 ∧ pmpEntryCfg 2 = 0 ∧
    (∀ i, 3 ≤ i → i ≤ 7 → pmpEntryCfg i &&& PMP_W = 0 ∨ pmpEntryCfg i &&& PMP_X = 0) ∧
    (∀ i, 8 ≤ i → pmpEntryCfg i = 0 ∧ pmpEntryAddr i = 0) := by
  refine ⟨by decide, ?_, by decide, by decide, ?_, ?_⟩
  · intro i h16 hl
    interval_cases i <;> revert hl <;> decide
  · intro i h3 h7
    interval_cases i <;> decide
  · intro i h8
    have n4 : ¬ i < 4 := by omega
    have n8 : ¬ i < 8 := by omega
    constructor
    · simp [pmpEntryCfg, n4, n8]
    · obtain ⟨k, rfl⟩ : ∃ k, i = k + 8 := ⟨i - 8, by omega⟩
      rfl

/-- Witness for C1 at concrete entries: the lock conjunct at entry 0, the
W xor X conjunct at entry 5, the higher-entries conjunct at entry 12. -/
theorem pmp_configuration_invariants_witness :
    (0 : Nat) = 0 ∧
    (pmpEntryCfg 5 &&& PMP_W = 0 ∨ pmpEntryCfg 5 &&& PMP_X = 0) ∧
    (pmpEntryCfg 12 = 0 ∧ pmpEntryAddr 12 = 0) :=
  ⟨pmp_configuration_invariants.2.1 0 (by decide) (by decide),
   pmp_configuration_invariants.2.2.2.2.1 5 (by decide) (by decide),
   pmp_configuration_invariants.2.2.2.2.2 12 (by decide)⟩

/-- Claim C2 (code bug evidence): the get_random syscall performs no range
check.  With a buffer pointer at 0x80010000 (kernel RAM, outside every
user region) the handler writes the stub byte 0xAA there and returns with
a0 restored to the entry pointer, so no error value reaches the user. -/
theorem syscall_validation_missing :
    ¬ inUserRegion 0x80010000 ∧
    Event.memWrite 0x80010000 0xAA ∈ (trapHandler sC2 8).1 ∧
    a0Of (trapHandler sC2 8).2 = some 0x80010000 := by
  decide

/-- Claim C3: for every trap with cause 1 (instruction access fault) or
cause 18 (software-check exception), the handler writes exactly the five
bytes C, F, I, bang, LF to the UART data register in that order and then
halts in a wfi loop; the test finisher is never written on this path. -/
theorem cfi_violation_fatal_path (s : TrapState) (mcause : Nat)
    (h : mcause = 1 ∨ mcause = 18) :
    trapHandler s mcause =
      ([Event.uartWrite 0x43, Event.uartWrite 0x46, Event.uartWrite 0x49,
        Event.uartWrite 0x21, Event.uartWrite 0x0A], Outcome.halt) ∧
    ∀ v, Event.finisherWrite v ∉ (trapHandler s mcause).1 := by
  rcases h with h | h <;> subst h
  · exact ⟨rfl, by intro v hv; simp [trapHandler, handleCfiViolation] at hv⟩
  · exact ⟨rfl, by intro v hv; simp [trapHandler, handleCfiViolation] at hv⟩

/-- Witness for C3 at cause 1 on a concrete machine state. -/
theorem cfi_violation_fatal_path_witness :
    trapHandler sDemo 1 =
      ([Event.uartWrite 0x43, Event.uartWrite 0x46, Event.uartWrite 0x49,
        Event.uartWrite 0x21, Event.uartWrite 0x0A], Outcome.halt) ∧
    Event.finisherWrite 0x5555 ∉ (trapHandler sDemo 1).1 :=
  ⟨(cfi_violation_fatal_path sDemo 1 (Or.inl rfl)).1,
   (cfi_violation_fatal_path sDemo 1 (Or.inl rfl)).2 0x5555⟩

/-- Claim C4: for every trap with cause 2, the handler reads the halfword
at mepc and advances mepc by 4 when its low two bits are 0b11 and by 2
otherwise, for every possible halfword value, and returns from the trap
with all saved registers restored.  The frame is assumed not to overlap
the two instruction bytes, which the memory map guarantees. -/
theorem illegal_instruction_skip (s : TrapState) (hwf : WF s)
    (hcode : s.mepc + 2 ≤ 4294967296)
    (hd : s.mepc + 2 ≤ s.regs.sp - 64 ∨ s.regs.sp - 32 ≤ s.mepc) :
    (trapHandler s 2).1 =
      [Event.mepcSet (if load16 s.mem s.mepc % 4 = 3
        then wrap (s.mepc + 4) else wrap (s.mepc + 2))] ∧
    regsOf (trapHandler s 2).2 = some s.regs ∧
    mepcOf (trapHandler s 2).2 = some (if load16 s.mem s.mepc % 4 = 3
      then wrap (s.mepc + 4) else wrap (s.mepc + 2)) := by
  obtain ⟨h0, h1, h2, h3, h4, h5, h6, h7, hsl, hsu, hm⟩ := hwf
  have hstep : trapHandler s 2 =
      handleIllegal s.mepc (frameBase s.regs.sp) (frameSave s.mem (frameBase s.regs.sp) s.regs) := by
    unfold trapHandler
    rw [if_neg (show (2 : Nat) ≠ 8 by decide), if_pos rfl]
  have hfb : frameBase s.regs.sp = s.regs.sp - 64 := by unfold frameBase wrap; omega
  rw [hstep, hfb]
  have h16 : load16 (frameSave s.mem (s.regs.sp - 64) s.regs) s.mepc = load16 s.mem s.mepc :=
    load16_frameSave_ne hcode (by omega) (by omega)
  simp only [handleIllegal]
  rw [h16]
  refine ⟨rfl, ?_, rfl⟩
  exact regsOf_trapReturn_frame _ (by omega) (by unfold wrap; omega) h0 h1 h2 h3 h4 h5 h6 h7

/-- Witness for C4 on a concrete machine state with zero memory, hence a
halfword whose low two bits are 0b00: mepc advances by 2. -/
theorem illegal_instruction_skip_witness :
    (trapHandler sDemo 2).1 =
      [Event.mepcSet (if load16 sDemo.mem sDemo.mepc % 4 = 3
        then wrap (sDemo.mepc + 4) else wrap (sDemo.mepc + 2))] ∧
    regsOf (trapHandler sDemo 2).2 = some sDemo.regs ∧
    mepcOf (trapHandler sDemo 2).2 = some (if load16 sDemo.mem sDemo.mepc % 4 = 3
      then wrap (sDemo.mepc + 4) else wrap (sDemo.mepc + 2)) :=
  illegal_instruction_skip sDemo (by decide) (by decide) (by decide)

/-- Claim C5: on every trap with cause 8 the very first observable effect
is the write of mepc + 4 back to mepc, before any syscall body performs a
memory or MMIO effect, and no later event touches mepc again; in
particular on syscall 2 the finisher write happens strictly after the
mepc advance and the handler then halts without returning. -/
theorem ecall_mepc_advance_first (s : TrapState) (hwf : WF s) :
    (∃ rest, (trapHandler s 8).1 = Event.mepcSet (wrap (s.mepc + 4)) :: rest ∧
      ∀ v, Event.mepcSet v ∉ rest) ∧
    (s.regs.a7 = 2 → trapHandler s 8 =
      ([Event.mepcSet (wrap (s.mepc + 4)), Event.finisherWrite 0x5555], Outcome.halt)) := by
  obtain ⟨h0, h1, h2, h3, h4, h5, h6, h7, hsl, hsu, hm⟩ := hwf
  have hstep : trapHandler s 8 =
      handleEcall s.mepc (frameBase s.regs.sp) (frameSave s.mem (frameBase s.regs.sp) s.regs) := by
    unfold trapHandler
    rw [if_pos rfl]
  have hfb : frameBase s.regs.sp = s.regs.sp - 64 := by unfold frameBase wrap; omega
  have e7 : loadW (frameSave s.mem (s.regs.sp - 64) s.regs) (s.regs.sp - 64 + 28) = s.regs.a7 :=
    frameSave_a7 (by omega) h7
  constructor
  · rw [hstep, hfb]
    simp only [handleEcall]
    split
    · exact ⟨_, rfl, by intro v hv; simp at hv⟩
    · split
      · exact ⟨_, rfl, fun v => putsEvents_no_mepcSet _ _ _ v⟩
      · split
        · exact ⟨_, rfl, by intro v hv; simp at hv⟩
        · split
          · exact ⟨_, rfl, fun v => fillLoop_no_mepcSet _ _ _ v⟩
          · exact ⟨_, rfl, by intro v hv; simp at hv⟩
  · intro ha
    rw [hstep, hfb]
    simp only [handleEcall]
    rw [e7, ha]
    rw [if_neg (show (2 : Nat) ≠ 0 by decide), if_neg (show (2 : Nat) ≠ 1 by decide),
        if_pos rfl]

/-- Witness for C5 on a concrete exit-syscall state. -/
theorem ecall_mepc_advance_first_witness :
    trapHandler sExit 8 =
      ([Event.mepcSet (wrap (sExit.mepc + 4)), Event.finisherWrite 0x5555], Outcome.halt) :=
  (ecall_mepc_advance_first sExit (by decide)).2 (by decide)

/-- Claim C6: rot_measure_firmware computes the 32-bit XOR of every aligned
word in the region; the empty range yields 0, and the four words 1, 2, 4,
8 yield 0xF. -/
theorem measure_firmware_xor :
    (∀ (mem : Mem) (base size : Nat), size % 4 = 0 → base + size ≤ 4294967296 →
      rot_measure_firmware mem base size = xorWords mem base (size / 4)) ∧
    (∀ (mem : Mem) (base : Nat), rot_measure_firmware mem base 0 = 0) ∧
    rot_measure_firmware exMem 0x80020000 16 = 0x0000000F := by
  refine ⟨?_, fun mem base => rfl, by decide⟩
  intro mem base size h4 hle
  unfold rot_measure_firmware
  rw [measureLoop_eq (size / 4) mem base 0 (by omega), Nat.zero_xor]

/-- Witness for C6 instantiating the general XOR characterisation on the
concrete 16-byte region of scenario S5. -/
theorem measure_firmware_xor_witness :
    rot_measure_firmware exMem 0x80020000 16 = xorWords exMem 0x80020000 4 :=
  measure_firmware_xor.1 exMem 0x80020000 16 (by decide) (by decide)

/-- Claim C7: rot_seal_secret is data XOR key and hence an involution in
its first argument. -/
theorem seal_secret_involution :
    ∀ x k : Nat, rot_seal_secret (rot_seal_secret x k) k = x := by
  intro x k
  unfold rot_seal_secret
  rw [Nat.xor_assoc, Nat.xor_self, Nat.xor_zero]

/-- Claim C8: syscall 2 writes exactly the 32-bit value 0x5555 to the test
finisher and then halts in a wfi loop, never returning, for every exit
code in a0. -/
theorem exit_syscall_finisher (s : TrapState) (hwf : WF s) (ha : s.regs.a7 = 2) :
    trapHandler s 8 =
      ([Event.mepcSet (wrap (s.mepc + 4)), Event.finisherWrite 0x5555], Outcome.halt) := by
  obtain ⟨h0, h1, h2, h3, h4, h5, h6, h7, hsl, hsu, hm⟩ := hwf
  have hstep : trapHandler s 8 =
      handleEcall s.mepc (frameBase s.regs.sp) (frameSave s.mem (frameBase s.regs.sp) s.regs) := by
    unfold trapHandler
    rw [if_pos rfl]
  have hfb : frameBase s.regs.sp = s.regs.sp - 64 := by unfold frameBase wrap; omega
  have e7 : loadW (frameSave s.mem (s.regs.sp - 64) s.regs) (s.regs.sp - 64 + 28) = s.regs.a7 :=
    frameSave_a7 (by omega) h7
  rw [hstep, hfb]
  simp only [handleEcall]
  rw [e7, ha]
  rw [if_neg (show (2 : Nat) ≠ 0 by decide), if_neg (show (2 : Nat) ≠ 1 by decide),
      if_pos rfl]

/-- Witness for C8 with exit code 0. -/
theorem exit_syscall_finisher_witness :
    trapHandler sExit0 8 =
      ([Event.mepcSet (wrap (sExit0.mepc + 4)), Event.finisherWrite 0x5555], Outcome.halt) :=
  exit_syscall_finisher sExit0 (by decide) (by decide)

/-- Claim C9: the dispatch table maps ids 0, 1, 2 to triple, add_42 and
square, giving dispatch(0,6) = 18, dispatch(1,6) = 48, dispatch(2,6) = 36,
and call_and_inc returns fp(x) + 1, giving 13 and 43 on the two scenarios. -/
theorem dispatch_and_call_values :
    dispatch 0 6 = some 18 ∧ dispatch 1 6 = some 48 ∧ dispatch 2 6 = some 36 ∧
    call_and_inc triple 4 = 13 ∧ call_and_inc add_42 0 = 43 := by
  decide

/-- Claim C10 counterexample: a get_random syscall whose buffer is the
saved-a0 slot of the trap frame overwrites the frame, so a0 comes back as
0xAAAAAAAA instead of its trap-entry value 0x80010FD0: the returning trap
path does not always restore the trap-entry registers. -/
theorem trap_return_a0_clobber :
    sC10.regs.a7 = 3 ∧ sC10.regs.a0 = 0x80010FD0 ∧
    a0Of (trapHandler sC10 8).2 = some 0xAAAAAAAA ∧
    regsOf (trapHandler sC10 8).2 ≠ some sC10.regs := by
  decide

/-- Claim C10 (amended): on every returning trap path the handler restores
the eight saved registers from the frame and sp by exactly 64 bytes, so
they hold their trap-entry values at mret, provided that for syscall 3 the
fill buffer does not overlap the 32 bytes of saved registers; a0 in
particular is restored from the frame, so no syscall result reaches the
user in a0. -/
theorem trap_return_restores_registers (s : TrapState) (hwf : WF s) :
    regsOf (trapHandler s 2).2 = some s.regs ∧
    (s.regs.a7 = 0 → regsOf (trapHandler s 8).2 = some s.regs) ∧
    (s.regs.a7 = 1 → regsOf (trapHandler s 8).2 = some s.regs) ∧
    (s.regs.a7 ≠ 0 → s.regs.a7 ≠ 1 → s.regs.a7 ≠ 2 → s.regs.a7 ≠ 3 →
      regsOf (trapHandler s 8).2 = some s.regs) ∧
    (s.regs.a7 = 3 →
      (∀ i, i < s.regs.a1 → (s.regs.a0 + i) % 4294967296 < s.regs.sp - 64 ∨
        s.regs.sp - 32 ≤ (s.regs.a0 + i) % 4294967296) →
      regsOf (trapHandler s 8).2 = some s.regs) := by
  obtain ⟨h0, h1, h2, h3, h4, h5, h6, h7, hsl, hsu, hm⟩ := hwf
  have hstep8 : trapHandler s 8 =
      handleEcall s.mepc (frameBase s.regs.sp) (frameSave s.mem (frameBase s.regs.sp) s.regs) := by
    unfold trapHandler
    rw [if_pos rfl]
  have hstep2 : trapHandler s 2 =
      handleIllegal s.mepc (frameBase s.regs.sp) (frameSave s.mem (frameBase s.regs.sp) s.regs) := by
    unfold trapHandler
    rw [if_neg (show (2 : Nat) ≠ 8 by decide), if_pos rfl]
  have hfb : frameBase s.regs.sp = s.regs.sp - 64 := by unfold frameBase wrap; omega
  have e7 : loadW (frameSave s.mem (s.regs.sp - 64) s.regs) (s.regs.sp - 64 + 28) = s.regs.a7 :=
    frameSave_a7 (by omega) h7
  have e4 : loadW (frameSave s.mem (s.regs.sp - 64) s.regs) (s.regs.sp - 64 + 16) = s.regs.a0 :=
    frameSave_a0 (by omega) h4
  have e5 : loadW (frameSave s.mem (s.regs.sp - 64) s.regs) (s.regs.sp - 64 + 20) = s.regs.a1 :=
    frameSave_a1 (by omega) h5
  have hrestore : ∀ mepcN : Nat,
      regsOf (trapReturn (s.regs.sp - 64) mepcN (frameSave s.mem (s.regs.sp - 64) s.regs)) =
        some s.regs :=
    fun mepcN =>
      regsOf_trapReturn_frame mepcN (by omega) (by unfold wrap; omega) h0 h1 h2 h3 h4 h5 h6 h7
  refine ⟨?_, ?_, ?_, ?_, ?_⟩
  · rw [hstep2, hfb]
    simp only [handleIllegal]
    exact hrestore _
  · intro ha
    rw [hstep8, hfb]
    simp only [handleEcall]
    rw [e7, ha, if_pos rfl]
    exact hrestore _
  · intro ha
    rw [hstep8, hfb]
    simp only [handleEcall]
    rw [e7, ha, if_neg (show (1 : Nat) ≠ 0 by decide), if_pos rfl]
    exact hrestore _
  · intro n0 n1 n2 n3
    rw [hstep8, hfb]
    simp only [handleEcall]
    rw [e7, if_neg n0, if_neg n1, if_neg n2, if_neg n3]
    exact hrestore _
  · intro ha hd
    rw [hstep8, hfb]
    simp only [handleEcall]
    rw [e7, ha, if_neg (show (3 : Nat) ≠ 0 by decide), if_neg (show (3 : Nat) ≠ 1 by decide),
        if_neg (show (3 : Nat) ≠ 2 by decide), if_pos rfl]
    rw [e4, e5]
    simp only [regsOf, trapReturn]
    have f0 : loadW (fillLoop (frameSave s.mem (s.regs.sp - 64) s.regs) s.regs.a0 s.regs.a1).1
        (s.regs.sp - 64) = loadW (frameSave s.mem (s.regs.sp - 64) s.regs) (s.regs.sp - 64) :=
      loadW_fillLoop_ne (by omega) (by intro i hi; have := hd i hi; omega)
    have f1 : loadW (fillLoop (frameSave s.mem (s.regs.sp - 64) s.regs) s.regs.a0 s.regs.a1).1
        (s.regs.sp - 64 + 4) =
        loadW (frameSave s.mem (s.regs.sp - 64) s.regs) (s.regs.sp - 64 + 4) :=
      loadW_fillLoop_ne (by omega) (by intro i hi; have := hd i hi; omega)
    have f2 : loadW (fillLoop (frameSave s.mem (s.regs.sp - 64) s.regs) s.regs.a0 s.regs.a1).1
        (s.regs.sp - 64 + 8) =
        loadW (frameSave s.mem (s.regs.sp - 64) s.regs) (s.regs.sp - 64 + 8) :=
      loadW_fillLoop_ne (by omega) (by intro i hi; have := hd i hi; omega)
    have f3 : loadW (fillLoop (frameSave s.mem (s.regs.sp - 64) s.regs) s.regs.a0 s.regs.a1).1
        (s.regs.sp - 64 + 12) =
        loadW (frameSave s.mem (s.regs.sp - 64) s.regs) (s.regs.sp - 64 + 12) :=
      loadW_fillLoop_ne (by omega) (by intro i hi; have := hd i hi; omega)
    have f4 : loadW (fillLoop (frameSave s.mem (s.regs.sp - 64) s.regs) s.regs.a0 s.regs.a1).1
        (s.regs.sp - 64 + 16) =
        loadW (frameSave s.mem (s.regs.sp - 64) s.regs) (s.regs.sp - 64 + 16) :=
      loadW_fillLoop_ne (by omega) (by intro i hi; have := hd i hi; omega)
    have f5 : loadW (fillLoop (frameSave s.mem (s.regs.sp - 64) s.regs) s.regs.a0 s.regs.a1).1
        (s.regs.sp - 64 + 20) =
        loadW (frameSave s.mem (s.regs.sp - 64) s.regs) (s.regs.sp - 64 + 20) :=
      loadW_fillLoop_ne (by omega) (by intro i hi; have := hd i hi; omega)
    have f6 : loadW (fillLoop (frameSave s.mem (s.regs.sp - 64) s.regs) s.regs.a0 s.regs.a1).1
        (s.regs.sp - 64 + 24) =
        loadW (frameSave s.mem (s.regs.sp - 64) s.regs) (s.regs.sp - 64 + 24) :=
      loadW_fillLoop_ne (by omega) (by intro i hi; have := hd i hi; omega)
    have f7 : loadW (fillLoop (frameSave s.mem (s.regs.sp - 64) s.regs) s.regs.a0 s.regs.a1).1
        (s.regs.sp - 64 + 28) =
        loadW (frameSave s.mem (s.regs.sp - 64) s.regs) (s.regs.sp - 64 + 28) :=
      loadW_fillLoop_ne (by omega) (by intro i hi; have := hd i hi; omega)
    rw [f0, f1, f2, f3, f4, f5, f6, f7,
        frameSave_ra (by omega) h0, frameSave_t0 (by omega) h1,
        frameSave_t1 (by omega) h2, frameSave_t2 (by omega) h3,
        frameSave_a0 (by omega) h4, frameSave_a1 (by omega) h5,
        frameSave_a2 (by omega) h6, frameSave_a7 (by omega) h7]
    have esp : wrap (s.regs.sp - 64 + 64) = s.regs.sp := by unfold wrap; omega
    rw [esp]

/-- Witness for the amended C10: a get_random syscall with a user-RAM
buffer disjoint from the frame restores every register. -/
theorem trap_return_restores_registers_witness :
    regsOf (trapHandler sFill 8).2 = some sFill.regs :=
  (trap_return_restores_registers sFill (by decide)).2.2.2.2 (by decide) (by decide)
